import Mathlib

/-!
Verification of the InvestorCalculator repository: a shallow embedding of
the CRUD layer and the ratio engine of investor_calculator.py, with the
persistent store modelled as association lists keyed by ticker, optional
numeric fields as `Option Rat`, and raised Python exceptions as `Except`.
-/

namespace InvestorCalc

/-- Python exceptions the embedded code can raise. -/
inductive PyError
  | typeError
  | zeroDivisionError
  | valueError
deriving DecidableEq, Repr

/-- A row of the companies table without its key: the name and sector
columns, both nullable strings. -/
structure CompanyData where
  name : Option String
  sector : Option String
deriving DecidableEq, Repr

/-- A row of the financial table without its key: the nine nullable numeric
columns of the Financial model, None standing for an unknown value. -/
structure FinancialData where
  ebitda : Option Rat
  sales : Option Rat
  net_profit : Option Rat
  market_price : Option Rat
  net_debt : Option Rat
  assets : Option Rat
  equity : Option Rat
  cash_equivalents : Option Rat
  liabilities : Option Rat
deriving DecidableEq, Repr

/-- The persistent store: both tables as association lists keyed by ticker
in insertion order. Ticker is the primary key of each table, so keys are
unique in every state the store itself can reach. -/
structure DB where
  companies : List (String × CompanyData)
  financials : List (String × FinancialData)
deriving DecidableEq, Repr

/-- Merge on a primary-key table, the semantics of session.merge: overwrite
the row with the given key in place when present, append a new row
otherwise; it never raises a duplicate-key error. -/
def mergeAssoc (k : String) (v : α) : List (String × α) → List (String × α)
  | [] => [(k, v)]
  | (k2, v2) :: rest =>
    if k2 = k then (k, v) :: rest else (k2, v2) :: mergeAssoc k v rest

/-- Query for the row with a given key, first match. -/
def lookupAssoc (k : String) : List (String × α) → Option α
  | [] => none
  | (k2, v2) :: rest => if k2 = k then some v2 else lookupAssoc k rest

/-- Number of rows of the table carrying a given key. -/
def countKey (k : String) (l : List (String × α)) : Nat :=
  (l.filter (fun r => r.1 = k)).length

/-- Python truthiness of a nullable float column: None and 0.0 are falsy,
every other value is truthy. -/
def truthy : Option Rat → Bool
  | none => false
  | some x => x != 0

/-- One indicator of read_company as the source computes it, the expression
numerator divided by denominator if the denominator is truthy else None.
A falsy denominator, unknown or exactly zero, yields None without raising;
a truthy denominator with an unknown numerator raises TypeError because
Python cannot divide None by a float. -/
def ratioCalc (num den : Option Rat) : Except PyError (Option Rat) :=
  if truthy den then
    match num, den with
    | some n, some d => .ok (some (n / d))
    | _, _ => .error .typeError
  else
    .ok none

/-- The seven indicator computations of read_company in source order; the
first one that raises aborts the whole block. -/
def readRatios (f : FinancialData) : Except PyError (List (Option Rat)) := do
  let pe ← ratioCalc f.market_price f.net_profit
  let ps ← ratioCalc f.market_price f.sales
  let pb ← ratioCalc f.market_price f.assets
  let nd ← ratioCalc f.net_debt f.ebitda
  let roe ← ratioCalc f.net_profit f.equity
  let roa ← ratioCalc f.net_profit f.assets
  let la ← ratioCalc f.liabilities f.assets
  return [pe, ps, pb, nd, roe, roa, la]

/-- What read_company displays for a selected financial row: the seven
indicator values on success; nothing at all when an exception is raised,
whether the inner handler catches a ZeroDivisionError or the outer handler
catches anything else. -/
def readCompanyDisplay (f : FinancialData) : Option (List (Option Rat)) :=
  match readRatios f with
  | .ok l => some l
  | .error _ => none

/-- The numerator and denominator fields of the seven indicators in display
order: P/E, P/S, P/B, ND/EBITDA, ROE, ROA, L/A. -/
def ratioArgs (f : FinancialData) : List (Option Rat × Option Rat) :=
  [(f.market_price, f.net_profit), (f.market_price, f.sales),
   (f.market_price, f.assets), (f.net_debt, f.ebitda),
   (f.net_profit, f.equity), (f.net_profit, f.assets),
   (f.liabilities, f.assets)]

/-- One candidate entry of the top-ten listing: the list comprehension keeps
a row only when both the numerator and the denominator field are truthy,
that is known and non-zero, and then divides them. -/
def rankEntry (t : String) (num den : Option Rat) : Option (String × Rat) :=
  if truthy num && truthy den then some (t, num.getD 0 / den.getD 0) else none

/-- The unsorted result list built by calculate_top_ten for a metric over
the financial table in query iteration order; none for a metric string
outside the three supported ones. -/
def rawResults (metric : String) (rows : List (String × FinancialData)) :
    Option (List (String × Rat)) :=
  if metric = "ND/EBITDA" then
    some (rows.filterMap (fun r => rankEntry r.1 r.2.net_debt r.2.ebitda))
  else if metric = "ROE" then
    some (rows.filterMap (fun r => rankEntry r.1 r.2.net_profit r.2.equity))
  else if metric = "ROA" then
    some (rows.filterMap (fun r => rankEntry r.1 r.2.net_profit r.2.assets))
  else none

/-- The numerator and denominator fields a metric reads from a financial
row, following the three branches of calculate_top_ten. -/
def metricArgs (metric : String) (f : FinancialData) :
    Option (Option Rat × Option Rat) :=
  if metric = "ND/EBITDA" then some (f.net_debt, f.ebitda)
  else if metric = "ROE" then some (f.net_profit, f.equity)
  else if metric = "ROA" then some (f.net_profit, f.assets)
  else none

/-- The sort results.sort with key value and reverse True: a stable sort by
the inverted comparison on the second component. -/
def sortByValueDesc (l : List (String × Rat)) : List (String × Rat) :=
  l.mergeSort (fun a b => decide (b.2 ≤ a.2))

/-- calculate_top_ten: build the candidate list for the metric, sort it
descending by value with a stable sort, keep the first ten entries. -/
def calculateTopTen (metric : String) (rows : List (String × FinancialData)) :
    Option (List (String × Rat)) :=
  (rawResults metric rows).map (fun res => (sortByValueDesc res).take 10)

/-- A parsed row of companies.csv: DictReader gives a string for each
present column and None for an absent one; the ticker column is present in
the shipped data and is the merge key. -/
structure CompanyRow where
  ticker : String
  name : Option String
  sector : Option String
deriving DecidableEq, Repr

/-- A parsed row of financial.csv: the ticker key and the nine numeric
columns as raw cells, None when the column is absent. -/
structure FinRow where
  ticker : String
  ebitda : Option String
  sales : Option String
  net_profit : Option String
  market_price : Option String
  net_debt : Option String
  assets : Option String
  equity : Option String
  cash_equivalents : Option String
  liabilities : Option String
deriving DecidableEq, Repr

/-- One numeric cell of financial.csv: a missing or empty cell is falsy and
is stored as None, never as zero; a non-empty cell goes through the builtin
float, which raises ValueError on a string it cannot parse. The builtin is
external, so it is passed in as pyFloat, returning none exactly on the
strings it rejects. -/
def parseCell (pyFloat : String → Option Rat) (cell : Option String) :
    Except PyError (Option Rat) :=
  match cell with
  | none => .ok none
  | some s =>
    if s = "" then .ok none
    else
      match pyFloat s with
      | some q => .ok (some q)
      | none => .error .valueError

/-- Parse the nine numeric cells of one financial.csv row in source order;
the first ValueError aborts the construction of the Financial object. -/
def parseFinRow (pyFloat : String → Option Rat) (r : FinRow) :
    Except PyError FinancialData := do
  let e ← parseCell pyFloat r.ebitda
  let s ← parseCell pyFloat r.sales
  let np ← parseCell pyFloat r.net_profit
  let mp ← parseCell pyFloat r.market_price
  let ndv ← parseCell pyFloat r.net_debt
  let av ← parseCell pyFloat r.assets
  let ev ← parseCell pyFloat r.equity
  let ce ← parseCell pyFloat r.cash_equivalents
  let li ← parseCell pyFloat r.liabilities
  return { ebitda := e, sales := s, net_profit := np, market_price := mp,
           net_debt := ndv, assets := av, equity := ev,
           cash_equivalents := ce, liabilities := li }

/-- The nine numeric cells of a financial.csv row in parse order. -/
def finCells (r : FinRow) : List (Option String) :=
  [r.ebitda, r.sales, r.net_profit, r.market_price, r.net_debt, r.assets,
   r.equity, r.cash_equivalents, r.liabilities]

/-- A financial.csv row holds a numeric cell that is non-empty yet rejected
by the float builtin. -/
def rowHasBadCell (pyFloat : String → Option Rat) (r : FinRow) : Prop :=
  ∃ s, some s ∈ finCells r ∧ s ≠ "" ∧ pyFloat s = none

/-- How insert_data ends. -/
inductive LoadOutcome
  | skipped
  | missingFiles
  | success
  | rolledBack
deriving DecidableEq, Repr

/-- Merge every row of companies.csv into the session state, in file
order. -/
def mergeCompanyRows : List CompanyRow → DB → DB
  | [], db => db
  | r :: rest, db =>
    mergeCompanyRows rest
      { db with companies :=
          mergeAssoc r.ticker { name := r.name, sector := r.sector } db.companies }

/-- Merge every row of financial.csv into the session state in file order,
parsing the numeric cells; the first bad cell raises and aborts the
loop. -/
def mergeFinRows (pyFloat : String → Option Rat) :
    List FinRow → DB → Except PyError DB
  | [], db => .ok db
  | r :: rest, db =>
    match parseFinRow pyFloat r with
    | .error e => .error e
    | .ok fin =>
      mergeFinRows pyFloat rest
        { db with financials := mergeAssoc r.ticker fin db.financials }

/-- insert_data: skip when at least one company exists and force_reload is
false; abort before any write when a CSV file is missing, files being none;
otherwise merge both files inside one transaction with a single commit at
the end, so that any exception on the way rolls the whole load back to the
prior state. -/
def insert_data (pyFloat : String → Option Rat) (force_reload : Bool) :
    Option (List CompanyRow × List FinRow) → DB → DB × LoadOutcome
  | none, db =>
    if force_reload || db.companies.length == 0 then (db, .missingFiles)
    else (db, .skipped)
  | some (crows, frows), db =>
    if force_reload || db.companies.length == 0 then
      match mergeFinRows pyFloat frows (mergeCompanyRows crows db) with
      | .ok s2 => (s2, .success)
      | .error _ => (db, .rolledBack)
    else (db, .skipped)

/-- clear_database: delete all Financial rows, then all Company rows, and
commit once; the storeRaises flag models the underlying store throwing
during the transaction, in which case the session rolls back and the
failure is reported. Returns the resulting store and whether an error was
reported. -/
def clear_database (storeRaises : Bool) (db : DB) : DB × Bool :=
  let afterFin : DB := { db with financials := [] }
  let afterBoth : DB := { afterFin with companies := [] }
  if storeRaises then (db, true) else (afterBoth, false)

/-- create_company after its prompts succeed: the nine numeric inputs are
validated floats, and the Company and Financial objects are merged and
committed in one transaction. -/
def create_company (ticker nm sec : String)
    (ebitda sales net_profit market_price net_debt assets equity
      cash_equivalents liabilities : Rat) (db : DB) : DB :=
  { companies :=
      mergeAssoc ticker { name := some nm, sector := some sec } db.companies,
    financials :=
      mergeAssoc ticker
        { ebitda := some ebitda, sales := some sales,
          net_profit := some net_profit, market_price := some market_price,
          net_debt := some net_debt, assets := some assets,
          equity := some equity, cash_equivalents := some cash_equivalents,
          liabilities := some liabilities }
        db.financials }

/-- delete_company on a selected ticker: session.delete on the Company row,
with the cascade declared on the Company.financials relationship deleting
the owned Financial row in the same transaction. -/
def delete_company (t : String) (db : DB) : DB :=
  { companies := db.companies.filter (fun r => r.1 != t),
    financials := db.financials.filter (fun r => r.1 != t) }

/-- Referential integrity of the store: the ticker of every Financial row
is the ticker of some Company row. -/
def integrity (db : DB) : Prop :=
  ∀ k ∈ db.financials.map Prod.fst, k ∈ db.companies.map Prod.fst

/-- A sample financial record whose numerator field for ROE, net profit, is
known and exactly zero while the denominator, equity, is known and
non-zero. -/
def finZeroNum : FinancialData :=
  { ebitda := none, sales := none, net_profit := some 0, market_price := none,
    net_debt := none, assets := none, equity := some 5,
    cash_equivalents := none, liabilities := none }

/-- A sample stand-in for the float builtin that accepts no string. -/
def noFloat : String → Option Rat := fun _ => none

/-- A sample financial.csv row whose ebitda cell is non-empty and
unparsable. -/
def badFinRow : FinRow :=
  { ticker := "BAD", ebitda := some "x", sales := none, net_profit := none,
    market_price := none, net_debt := none, assets := none, equity := none,
    cash_equivalents := none, liabilities := none }

/-! Helper lemmas about the ratio engine. -/

lemma truthy_some_iff {d : Rat} : truthy (some d) = true ↔ d ≠ 0 := by
  simp [truthy]

lemma ratioCalc_falsy (num : Option Rat) {den : Option Rat}
    (h : truthy den = false) : ratioCalc num den = .ok none := by
  simp [ratioCalc, h]

lemma ratioCalc_known {n d : Rat} (hd : d ≠ 0) :
    ratioCalc (some n) (some d) = .ok (some (n / d)) := by
  simp [ratioCalc, truthy_some_iff.mpr hd]

lemma ratioCalc_none_num {d : Rat} (hd : d ≠ 0) :
    ratioCalc none (some d) = .error .typeError := by
  simp [ratioCalc, truthy_some_iff.mpr hd]

lemma ratioCalc_never_zde (num den : Option Rat) :
    ratioCalc num den ≠ .error .zeroDivisionError := by
  cases den with
  | none => simp [ratioCalc, truthy]
  | some d =>
    by_cases hd : d = 0
    · subst hd; simp [ratioCalc, truthy]
    · cases num with
      | none => simp [ratioCalc_none_num hd]
      | some n => simp [ratioCalc_known hd]

lemma ratioCalc_cases (num den : Option Rat) :
    (∃ r, ratioCalc num den = .ok r) ∨ ratioCalc num den = .error .typeError := by
  cases den with
  | none => exact .inl ⟨none, ratioCalc_falsy num rfl⟩
  | some d =>
    by_cases hd : d = 0
    · subst hd
      exact .inl ⟨none, ratioCalc_falsy num (by simp [truthy])⟩
    · cases num with
      | none => exact .inr (ratioCalc_none_num hd)
      | some n => exact .inl ⟨some (n / d), ratioCalc_known hd⟩

lemma readRatios_cases (f : FinancialData) :
    (∃ l, readRatios f = .ok l) ∨ readRatios f = .error .typeError := by
  rcases ratioCalc_cases f.market_price f.net_profit with ⟨r1, h1⟩ | h1
  · rcases ratioCalc_cases f.market_price f.sales with ⟨r2, h2⟩ | h2
    · rcases ratioCalc_cases f.market_price f.assets with ⟨r3, h3⟩ | h3
      · rcases ratioCalc_cases f.net_debt f.ebitda with ⟨r4, h4⟩ | h4
        · rcases ratioCalc_cases f.net_profit f.equity with ⟨r5, h5⟩ | h5
          · rcases ratioCalc_cases f.net_profit f.assets with ⟨r6, h6⟩ | h6
            · rcases ratioCalc_cases f.liabilities f.assets with ⟨r7, h7⟩ | h7
              · exact .inl ⟨[r1, r2, r3, r4, r5, r6, r7],
                  by unfold readRatios; rw [h1, h2, h3, h4, h5, h6, h7]; rfl⟩
              · exact .inr (by unfold readRatios; rw [h1, h2, h3, h4, h5, h6, h7]; rfl)
            · exact .inr (by unfold readRatios; rw [h1, h2, h3, h4, h5, h6]; rfl)
          · exact .inr (by unfold readRatios; rw [h1, h2, h3, h4, h5]; rfl)
        · exact .inr (by unfold readRatios; rw [h1, h2, h3, h4]; rfl)
      · exact .inr (by unfold readRatios; rw [h1, h2, h3]; rfl)
    · exact .inr (by unfold readRatios; rw [h1, h2]; rfl)
  · exact .inr (by unfold readRatios; rw [h1]; rfl)

lemma readRatios_ok_cells {f : FinancialData} {l : List (Option Rat)}
    (hok : readRatios f = .ok l) :
    ∀ p ∈ ratioArgs f, ∃ r, ratioCalc p.1 p.2 = .ok r := by
  intro p hp
  rcases ratioCalc_cases f.market_price f.net_profit with ⟨r1, h1⟩ | h1
  case inr => rw [(by unfold readRatios; rw [h1]; rfl :
    readRatios f = .error .typeError)] at hok; exact absurd hok (by simp)
  rcases ratioCalc_cases f.market_price f.sales with ⟨r2, h2⟩ | h2
  case inr => rw [(by unfold readRatios; rw [h1, h2]; rfl :
    readRatios f = .error .typeError)] at hok; exact absurd hok (by simp)
  rcases ratioCalc_cases f.market_price f.assets with ⟨r3, h3⟩ | h3
  case inr => rw [(by unfold readRatios; rw [h1, h2, h3]; rfl :
    readRatios f = .error .typeError)] at hok; exact absurd hok (by simp)
  rcases ratioCalc_cases f.net_debt f.ebitda with ⟨r4, h4⟩ | h4
  case inr => rw [(by unfold readRatios; rw [h1, h2, h3, h4]; rfl :
    readRatios f = .error .typeError)] at hok; exact absurd hok (by simp)
  rcases ratioCalc_cases f.net_profit f.equity with ⟨r5, h5⟩ | h5
  case inr => rw [(by unfold readRatios; rw [h1, h2, h3, h4, h5]; rfl :
    readRatios f = .error .typeError)] at hok; exact absurd hok (by simp)
  rcases ratioCalc_cases f.net_profit f.assets with ⟨r6, h6⟩ | h6
  case inr => rw [(by unfold readRatios; rw [h1, h2, h3, h4, h5, h6]; rfl :
    readRatios f = .error .typeError)] at hok; exact absurd hok (by simp)
  rcases ratioCalc_cases f.liabilities f.assets with ⟨r7, h7⟩ | h7
  case inr => rw [(by unfold readRatios; rw [h1, h2, h3, h4, h5, h6, h7]; rfl :
    readRatios f = .error .typeError)] at hok; exact absurd hok (by simp)
  simp only [ratioArgs, List.mem_cons, List.not_mem_nil, or_false] at hp
  rcases hp with rfl | rfl | rfl | rfl | rfl | rfl | rfl
  · exact ⟨r1, h1⟩
  · exact ⟨r2, h2⟩
  · exact ⟨r3, h3⟩
  · exact ⟨r4, h4⟩
  · exact ⟨r5, h5⟩
  · exact ⟨r6, h6⟩
  · exact ⟨r7, h7⟩

/-! Helper lemmas about the association-list store primitives. -/

lemma lookupAssoc_mergeAssoc_self (k : String) (v : α) (l : List (String × α)) :
    lookupAssoc k (mergeAssoc k v l) = some v := by
  induction l with
  | nil => simp [mergeAssoc, lookupAssoc]
  | cons a rest ih =>
    obtain ⟨k2, v2⟩ := a
    by_cases h : k2 = k
    · subst h; simp [mergeAssoc, lookupAssoc]
    · simp [mergeAssoc, lookupAssoc, h, ih]

lemma lookupAssoc_mergeAssoc_ne {t k : String} (h : t ≠ k) (v : α)
    (l : List (String × α)) :
    lookupAssoc t (mergeAssoc k v l) = lookupAssoc t l := by
  induction l with
  | nil => simp [mergeAssoc, lookupAssoc, Ne.symm h]
  | cons a rest ih =>
    obtain ⟨k2, v2⟩ := a
    by_cases hk : k2 = k
    · subst hk
      simp [mergeAssoc, lookupAssoc, Ne.symm h]
    · simp [mergeAssoc, lookupAssoc, hk, ih]

lemma countKey_not_mem {k : String} {l : List (String × α)}
    (h : k ∉ l.map Prod.fst) : countKey k l = 0 := by
  induction l with
  | nil => simp [countKey]
  | cons a rest ih =>
    obtain ⟨k2, v2⟩ := a
    simp only [List.map_cons, List.mem_cons, not_or] at h
    have hne : ¬(k2 = k) := fun hh => h.1 hh.symm
    have h0 := ih h.2
    simp only [countKey, List.filter_cons] at h0 ⊢
    simp [hne, h0]

lemma countKey_mergeAssoc_self {l : List (String × α)}
    (hnd : (l.map Prod.fst).Nodup) (k : String) (v : α) :
    countKey k (mergeAssoc k v l) = 1 := by
  induction l with
  | nil => simp [mergeAssoc, countKey]
  | cons a rest ih =>
    obtain ⟨k2, v2⟩ := a
    simp only [List.map_cons, List.nodup_cons] at hnd
    obtain ⟨hk2, hndr⟩ := hnd
    by_cases h : k2 = k
    · subst h
      have h0 : countKey k2 rest = 0 := countKey_not_mem hk2
      simp only [countKey, List.filter_cons] at h0 ⊢
      simp only [mergeAssoc, if_pos rfl]
      simp [h0]
    · have hr := ih hndr
      simp only [mergeAssoc, if_neg h]
      simp only [countKey, List.filter_cons] at hr ⊢
      simp [h, hr]

lemma lookupAssoc_filter_ne (t : String) (l : List (String × α)) :
    lookupAssoc t (l.filter (fun r => r.1 != t)) = none := by
  induction l with
  | nil => simp [lookupAssoc]
  | cons a rest ih =>
    obtain ⟨k2, v2⟩ := a
    by_cases h : k2 = t
    · subst h; simpa [List.filter_cons] using ih
    · simpa [List.filter_cons, h, lookupAssoc] using ih

/-- C1: for every Financial record and each of the seven per-company
ratios, a ratio whose denominator field is unknown or exactly zero
evaluates to None without raising, the ratio computation never produces a
ZeroDivisionError, a known numerator over a known non-zero denominator
evaluates to their quotient, and the whole read_company indicator block
never raises a ZeroDivisionError. -/
theorem c1_read_ratio_guard (f : FinancialData) :
    (∀ p ∈ ratioArgs f,
      ((p.2 = none ∨ p.2 = some 0) → ratioCalc p.1 p.2 = Except.ok none) ∧
      ratioCalc p.1 p.2 ≠ Except.error PyError.zeroDivisionError ∧
      (∀ n d, p.1 = some n → p.2 = some d → d ≠ 0 →
        ratioCalc p.1 p.2 = Except.ok (some (n / d)))) ∧
    readRatios f ≠ Except.error PyError.zeroDivisionError := by
  constructor
  · intro p _
    refine ⟨?_, ratioCalc_never_zde p.1 p.2, ?_⟩
    · rintro (h | h) <;> rw [h]
      · exact ratioCalc_falsy p.1 rfl
      · exact ratioCalc_falsy p.1 (by simp [truthy])
    · intro n d hn hd hdne
      rw [hn, hd]
      exact ratioCalc_known hdne
  · rcases readRatios_cases f with ⟨l, h⟩ | h <;> rw [h] <;> simp

/-- Witness for C1 at a concrete record: market price 6 over net profit 3
evaluates to their quotient. -/
theorem c1_read_ratio_guard_witness :
    ratioCalc (some 6) (some 3) = Except.ok (some ((6 : Rat) / 3)) := by
  have h := (c1_read_ratio_guard
    { ebitda := none, sales := none, net_profit := some 3,
      market_price := some 6, net_debt := none, assets := none,
      equity := none, cash_equivalents := none, liabilities := none }).1
    (some 6, some 3) (by simp [ratioArgs])
  exact h.2.2 6 3 rfl rfl (by norm_num)

/-- C9: when some ratio has an unknown numerator and a known non-zero
denominator, the division of None by a float raises a TypeError that the
inner ZeroDivisionError handler does not catch, so read_company aborts
through its outer handler and displays no ratios at all. -/
theorem c9_read_aborts_on_unknown_numerator (f : FinancialData)
    (h : ∃ p ∈ ratioArgs f, p.1 = none ∧ truthy p.2 = true) :
    readCompanyDisplay f = none := by
  obtain ⟨p, hp, hnum, hden⟩ := h
  have hbad : ratioCalc p.1 p.2 = .error .typeError := by
    cases hd : p.2 with
    | none => rw [hd] at hden; simp [truthy] at hden
    | some d =>
      rw [hd] at hden
      rw [hnum]
      exact ratioCalc_none_num (truthy_some_iff.mp hden)
  rcases readRatios_cases f with ⟨l, hok⟩ | herr
  · obtain ⟨r, hr⟩ := readRatios_ok_cells hok p hp
    rw [hbad] at hr
    exact absurd hr (by simp)
  · unfold readCompanyDisplay
    rw [herr]

/-- Witness for C9 at a concrete record: market price unknown with net
profit 1 makes read_company display nothing. -/
theorem c9_read_aborts_witness :
    readCompanyDisplay
      { ebitda := none, sales := none, net_profit := some 1,
        market_price := none, net_debt := none, assets := none,
        equity := none, cash_equivalents := none, liabilities := none }
      = none :=
  c9_read_aborts_on_unknown_numerator _
    ⟨(none, some 1), by simp [ratioArgs], rfl, by decide⟩

/-- C5: with force_reload false and at least one Company row present,
insert_data is a no-op: both tables are returned untouched and the load is
skipped. -/
theorem c5_load_skips_when_data_exists (pyFloat : String → Option Rat)
    (files : Option (List CompanyRow × List FinRow)) (db : DB)
    (h : db.companies ≠ []) :
    insert_data pyFloat false files db = (db, LoadOutcome.skipped) := by
  have hlen : (db.companies.length == 0) = false := by
    simp [List.length_eq_zero, h]
  cases files with
  | none => simp only [insert_data]; rw [hlen]; simp
  | some p =>
    obtain ⟨crows, frows⟩ := p
    simp only [insert_data]
    rw [hlen]
    simp

/-- Witness for C5 at a concrete store holding one company. -/
theorem c5_load_skips_witness :
    insert_data (fun _ => none) false none
      { companies := [("AAPL", { name := some "Apple", sector := none })],
        financials := [] }
      = ({ companies := [("AAPL", { name := some "Apple", sector := none })],
           financials := [] }, LoadOutcome.skipped) :=
  c5_load_skips_when_data_exists (fun _ => none) none _ (by simp)

/-- C6: clear_database deletes every Financial row and every Company row in
one transaction, after which both counts are zero and no error is
reported; when the underlying store throws during the transaction, the
whole deletion is rolled back, the store is unchanged, and the failure is
reported. -/
theorem c6_clear_database (db : DB) :
    (clear_database false db).1.companies.length = 0 ∧
    (clear_database false db).1.financials.length = 0 ∧
    (clear_database false db).2 = false ∧
    (clear_database true db).1 = db ∧
    (clear_database true db).2 = true := by
  simp [clear_database]

/-- C7: upsert is idempotent by key: creating a company whose ticker is
already present overwrites both rows in place without raising, leaving
exactly one row per table for that ticker, holding the latest values. -/
theorem c7_upsert_overwrites_by_key (db : DB) (t nm sec : String)
    (e s np mp ndv av ev ce li : Rat)
    (hcn : (db.companies.map Prod.fst).Nodup)
    (hfn : (db.financials.map Prod.fst).Nodup)
    (hct : t ∈ db.companies.map Prod.fst)
    (hft : t ∈ db.financials.map Prod.fst) :
    countKey t (create_company t nm sec e s np mp ndv av ev ce li db).companies = 1 ∧
    countKey t (create_company t nm sec e s np mp ndv av ev ce li db).financials = 1 ∧
    lookupAssoc t (create_company t nm sec e s np mp ndv av ev ce li db).companies
      = some { name := some nm, sector := some sec } ∧
    lookupAssoc t (create_company t nm sec e s np mp ndv av ev ce li db).financials
      = some { ebitda := some e, sales := some s, net_profit := some np,
               market_price := some mp, net_debt := some ndv,
               assets := some av, equity := some ev,
               cash_equivalents := some ce, liabilities := some li } :=
  ⟨countKey_mergeAssoc_self hcn t _, countKey_mergeAssoc_self hfn t _,
   lookupAssoc_mergeAssoc_self t _ _, lookupAssoc_mergeAssoc_self t _ _⟩

/-- Witness for C7: overwriting the single AAPL record keeps one row per
table with the new values. -/
theorem c7_upsert_overwrites_witness :
    countKey "AAPL"
      (create_company "AAPL" "Apple" "Tech" 1 2 3 4 5 6 7 8 9
        { companies := [("AAPL", { name := some "Old", sector := none })],
          financials :=
            [("AAPL", { ebitda := none, sales := none, net_profit := none,
                        market_price := none, net_debt := none, assets := none,
                        equity := none, cash_equivalents := none,
                        liabilities := none })] }).companies = 1 ∧
    countKey "AAPL"
      (create_company "AAPL" "Apple" "Tech" 1 2 3 4 5 6 7 8 9
        { companies := [("AAPL", { name := some "Old", sector := none })],
          financials :=
            [("AAPL", { ebitda := none, sales := none, net_profit := none,
                        market_price := none, net_debt := none, assets := none,
                        equity := none, cash_equivalents := none,
                        liabilities := none })] }).financials = 1 ∧
    lookupAssoc "AAPL"
      (create_company "AAPL" "Apple" "Tech" 1 2 3 4 5 6 7 8 9
        { companies := [("AAPL", { name := some "Old", sector := none })],
          financials :=
            [("AAPL", { ebitda := none, sales := none, net_profit := none,
                        market_price := none, net_debt := none, assets := none,
                        equity := none, cash_equivalents := none,
                        liabilities := none })] }).companies
      = some { name := some "Apple", sector := some "Tech" } ∧
    lookupAssoc "AAPL"
      (create_company "AAPL" "Apple" "Tech" 1 2 3 4 5 6 7 8 9
        { companies := [("AAPL", { name := some "Old", sector := none })],
          financials :=
            [("AAPL", { ebitda := none, sales := none, net_profit := none,
                        market_price := none, net_debt := none, assets := none,
                        equity := none, cash_equivalents := none,
                        liabilities := none })] }).financials
      = some { ebitda := some 1, sales := some 2, net_profit := some 3,
               market_price := some 4, net_debt := some 5, assets := some 6,
               equity := some 7, cash_equivalents := some 8,
               liabilities := some 9 } :=
  c7_upsert_overwrites_by_key _ "AAPL" "Apple" "Tech" 1 2 3 4 5 6 7 8 9
    (by simp) (by simp) (by simp) (by simp)

/-- C8: deleting a Company cascades to its Financial row: after
delete_company on a ticker, a query for that ticker finds neither a
Financial nor a Company row, and referential integrity of the store is
preserved. -/
theorem c8_delete_cascades (t : String) (db : DB) (h : integrity db) :
    lookupAssoc t (delete_company t db).financials = none ∧
    lookupAssoc t (delete_company t db).companies = none ∧
    integrity (delete_company t db) := by
  refine ⟨lookupAssoc_filter_ne t _, lookupAssoc_filter_ne t _, ?_⟩
  intro k hk
  simp only [delete_company, List.mem_map, List.mem_filter] at hk ⊢
  obtain ⟨r, ⟨hrmem, hrt⟩, hrk⟩ := hk
  have hkc : k ∈ db.companies.map Prod.fst :=
    h k (List.mem_map.mpr ⟨r, hrmem, hrk⟩)
  obtain ⟨c, hcmem, hck⟩ := List.mem_map.mp hkc
  refine ⟨c, ⟨hcmem, ?_⟩, hck⟩
  rw [hck, ← hrk] at *
  exact hrt

/-- Witness for C8 at a one-company store. -/
theorem c8_delete_cascades_witness :
    lookupAssoc "AAPL"
      (delete_company "AAPL"
        { companies := [("AAPL", { name := some "Apple", sector := none })],
          financials :=
            [("AAPL", { ebitda := some 1, sales := none, net_profit := none,
                        market_price := none, net_debt := none, assets := none,
                        equity := none, cash_equivalents := none,
                        liabilities := none })] }).financials = none ∧
    lookupAssoc "AAPL"
      (delete_company "AAPL"
        { companies := [("AAPL", { name := some "Apple", sector := none })],
          financials :=
            [("AAPL", { ebitda := some 1, sales := none, net_profit := none,
                        market_price := none, net_debt := none, assets := none,
                        equity := none, cash_equivalents := none,
                        liabilities := none })] }).companies = none ∧
    integrity
      (delete_company "AAPL"
        { companies := [("AAPL", { name := some "Apple", sector := none })],
          financials :=
            [("AAPL", { ebitda := some 1, sales := none, net_profit := none,
                        market_price := none, net_debt := none, assets := none,
                        equity := none, cash_equivalents := none,
                        liabilities := none })] }) :=
  c8_delete_cascades "AAPL" _ (by simp [integrity])

/-! Helper lemmas about the ranking engine. -/

lemma rankEntry_eq_some {a t : String} {num den : Option Rat} {v : Rat} :
    rankEntry a num den = some (t, v) ↔
      a = t ∧ num.getD 0 / den.getD 0 = v ∧
        truthy num = true ∧ truthy den = true := by
  unfold rankEntry
  by_cases h : (truthy num && truthy den) = true
  · have h12 := h
    rw [Bool.and_eq_true] at h12
    obtain ⟨h1, h2⟩ := h12
    rw [if_pos h]
    simp [h1, h2]
  · rw [if_neg h]
    rw [Bool.and_eq_true] at h
    constructor
    · intro hh; exact absurd hh (by simp)
    · rintro ⟨-, -, h1, h2⟩; exact absurd ⟨h1, h2⟩ h

lemma mem_filterMap_rankEntry (g h : FinancialData → Option Rat)
    (rows : List (String × FinancialData)) (t : String) (v : Rat) :
    (t, v) ∈ rows.filterMap (fun r => rankEntry r.1 (g r.2) (h r.2)) ↔
      ∃ f, (t, f) ∈ rows ∧ truthy (g f) = true ∧ truthy (h f) = true ∧
        (g f).getD 0 / (h f).getD 0 = v := by
  rw [List.mem_filterMap]
  constructor
  · rintro ⟨⟨a, f⟩, hr, hre⟩
    obtain ⟨hat, hv, h1, h2⟩ := rankEntry_eq_some.mp hre
    subst hat
    exact ⟨f, hr, h1, h2, hv⟩
  · rintro ⟨f, hf, h1, h2, hv⟩
    exact ⟨(t, f), hf, rankEntry_eq_some.mpr ⟨rfl, hv, h1, h2⟩⟩

/-- C2, amended: for each supported metric, the ranking computes the ratio
exactly for the rows whose two required fields are both truthy, that is
known and non-zero; a company whose numerator field is known and equal to
zero is excluded just like one with a missing field or a zero
denominator. -/
theorem c2_rank_membership (metric : String)
    (rows : List (String × FinancialData))
    (hm : metric ∈ (["ND/EBITDA", "ROE", "ROA"] : List String)) :
    ∃ raw, rawResults metric rows = some raw ∧
      ∀ t v, ((t, v) ∈ raw ↔
        ∃ f a, (t, f) ∈ rows ∧ metricArgs metric f = some a ∧
          truthy a.1 = true ∧ truthy a.2 = true ∧
          a.1.getD 0 / a.2.getD 0 = v) := by
  simp only [List.mem_cons, List.not_mem_nil, or_false] at hm
  rcases hm with rfl | rfl | rfl
  · refine ⟨rows.filterMap (fun r => rankEntry r.1 r.2.net_debt r.2.ebitda),
      by simp [rawResults], ?_⟩
    intro t v
    rw [mem_filterMap_rankEntry (fun f => f.net_debt) (fun f => f.ebitda)]
    constructor
    · rintro ⟨f, hf, h1, h2, hv⟩
      exact ⟨f, (f.net_debt, f.ebitda), hf, by simp [metricArgs], h1, h2, hv⟩
    · rintro ⟨f, a, hf, ha, h1, h2, hv⟩
      simp [metricArgs] at ha
      subst ha
      exact ⟨f, hf, h1, h2, hv⟩
  · refine ⟨rows.filterMap (fun r => rankEntry r.1 r.2.net_profit r.2.equity),
      by simp [rawResults], ?_⟩
    intro t v
    rw [mem_filterMap_rankEntry (fun f => f.net_profit) (fun f => f.equity)]
    constructor
    · rintro ⟨f, hf, h1, h2, hv⟩
      exact ⟨f, (f.net_profit, f.equity), hf, by simp [metricArgs], h1, h2, hv⟩
    · rintro ⟨f, a, hf, ha, h1, h2, hv⟩
      simp [metricArgs] at ha
      subst ha
      exact ⟨f, hf, h1, h2, hv⟩
  · refine ⟨rows.filterMap (fun r => rankEntry r.1 r.2.net_profit r.2.assets),
      by simp [rawResults], ?_⟩
    intro t v
    rw [mem_filterMap_rankEntry (fun f => f.net_profit) (fun f => f.assets)]
    constructor
    · rintro ⟨f, hf, h1, h2, hv⟩
      exact ⟨f, (f.net_profit, f.assets), hf, by simp [metricArgs], h1, h2, hv⟩
    · rintro ⟨f, a, hf, ha, h1, h2, hv⟩
      simp [metricArgs] at ha
      subst ha
      exact ⟨f, hf, h1, h2, hv⟩

/-- Counterexample to C2 as stated: a company whose ROE numerator is known
and exactly zero, with a known non-zero denominator, is silently excluded
from the ranking rather than included. -/
theorem c2_rank_membership_counterexample :
    finZeroNum.net_profit = some 0 ∧ finZeroNum.equity = some 5 ∧
    (5 : Rat) ≠ 0 ∧
    rawResults "ROE" [("A", finZeroNum)] = some [] := by
  refine ⟨rfl, rfl, by norm_num, ?_⟩
  simp [rawResults, rankEntry, finZeroNum, truthy]

/-- Witness for C2 amended, at a one-row store whose fields are truthy. -/
theorem c2_rank_membership_witness :
    ∃ raw, rawResults "ROE"
        [("A", { ebitda := none, sales := none, net_profit := some 1,
                 market_price := none, net_debt := none, assets := none,
                 equity := some 2, cash_equivalents := none,
                 liabilities := none })] = some raw ∧
      ∀ t v, ((t, v) ∈ raw ↔
        ∃ f a, (t, f) ∈
            [("A", ({ ebitda := none, sales := none, net_profit := some 1,
                      market_price := none, net_debt := none, assets := none,
                      equity := some 2, cash_equivalents := none,
                      liabilities := none } : FinancialData))] ∧
          metricArgs "ROE" f = some a ∧
          truthy a.1 = true ∧ truthy a.2 = true ∧
          a.1.getD 0 / a.2.getD 0 = v) :=
  c2_rank_membership "ROE" _ (by simp)

lemma descBool_trans : ∀ a b c : String × Rat,
    (fun a b : String × Rat => decide (b.2 ≤ a.2)) a b = true →
    (fun a b : String × Rat => decide (b.2 ≤ a.2)) b c = true →
    (fun a b : String × Rat => decide (b.2 ≤ a.2)) a c = true := by
  intro a b c h1 h2
  exact decide_eq_true (le_trans (of_decide_eq_true h2) (of_decide_eq_true h1))

lemma descBool_total : ∀ a b : String × Rat,
    ((fun a b : String × Rat => decide (b.2 ≤ a.2)) a b ||
     (fun a b : String × Rat => decide (b.2 ≤ a.2)) b a) = true := by
  intro a b
  rcases le_total a.2 b.2 with h | h
  · simp [decide_eq_true h]
  · simp [decide_eq_true h]

/-- C3: for each supported metric the ranking returns at most ten entries,
sorted by ratio value in descending order; the returned list is the
ten-entry prefix of the stable descending sort of the raw results, and
entries with equal values keep the iteration order of the underlying
query, their subsequence of the raw list being a subsequence of the sorted
list. -/
theorem c3_rank_top_ten (metric : String)
    (rows : List (String × FinancialData))
    (hm : metric ∈ (["ND/EBITDA", "ROE", "ROA"] : List String)) :
    ∃ raw res, rawResults metric rows = some raw ∧
      calculateTopTen metric rows = some res ∧
      res = (sortByValueDesc raw).take 10 ∧
      res.length ≤ 10 ∧
      res.Pairwise (fun a b => b.2 ≤ a.2) ∧
      ∀ v : Rat,
        (raw.filter (fun p => p.2 == v)).Sublist (sortByValueDesc raw) := by
  have hex : ∃ raw, rawResults metric rows = some raw := by
    simp only [List.mem_cons, List.not_mem_nil, or_false] at hm
    rcases hm with rfl | rfl | rfl <;> exact ⟨_, rfl⟩
  obtain ⟨raw, hraw⟩ := hex
  have hsorted := @List.sorted_mergeSort (String × Rat)
    (fun a b : String × Rat => decide (b.2 ≤ a.2))
    descBool_trans descBool_total raw
  refine ⟨raw, (sortByValueDesc raw).take 10, hraw, ?_, rfl, ?_, ?_, ?_⟩
  · rw [calculateTopTen, hraw]; rfl
  · rw [List.length_take]; exact min_le_left _ _
  · have hsub : ((sortByValueDesc raw).take 10).Sublist (sortByValueDesc raw) :=
      List.take_sublist _ _
    have hp : (sortByValueDesc raw).Pairwise
        (fun a b : String × Rat => b.2 ≤ a.2) := by
      unfold sortByValueDesc
      exact hsorted.imp (fun h => of_decide_eq_true h)
    exact hp.sublist hsub
  · intro v
    unfold sortByValueDesc
    apply List.sublist_mergeSort descBool_trans descBool_total
    · apply List.pairwise_of_forall_mem_list
      intro a ha b hb
      have ha2 := (List.mem_filter.mp ha).2
      have hb2 := (List.mem_filter.mp hb).2
      have hav : a.2 = v := by simpa using ha2
      have hbv : b.2 = v := by simpa using hb2
      exact decide_eq_true (le_of_eq (by rw [hav, hbv]))
    · exact List.filter_sublist raw

/-- Witness for C3 on the spec scenario: three companies with ROE one half,
three tenths, and one with equity unknown. -/
theorem c3_rank_top_ten_witness :
    ∃ raw res,
      rawResults "ROE"
        [("A", ({ ebitda := none, sales := none, net_profit := some 1,
                  market_price := none, net_debt := none, assets := none,
                  equity := some 2, cash_equivalents := none,
                  liabilities := none } : FinancialData)),
         ("B", ({ ebitda := none, sales := none, net_profit := some 3,
                  market_price := none, net_debt := none, assets := none,
                  equity := some 10, cash_equivalents := none,
                  liabilities := none } : FinancialData)),
         ("C", ({ ebitda := none, sales := none, net_profit := some 4,
                  market_price := none, net_debt := none, assets := none,
                  equity := none, cash_equivalents := none,
                  liabilities := none } : FinancialData))] = some raw ∧
      calculateTopTen "ROE"
        [("A", ({ ebitda := none, sales := none, net_profit := some 1,
                  market_price := none, net_debt := none, assets := none,
                  equity := some 2, cash_equivalents := none,
                  liabilities := none } : FinancialData)),
         ("B", ({ ebitda := none, sales := none, net_profit := some 3,
                  market_price := none, net_debt := none, assets := none,
                  equity := some 10, cash_equivalents := none,
                  liabilities := none } : FinancialData)),
         ("C", ({ ebitda := none, sales := none, net_profit := some 4,
                  market_price := none, net_debt := none, assets := none,
                  equity := none, cash_equivalents := none,
                  liabilities := none } : FinancialData))] = some res ∧
      res = (sortByValueDesc raw).take 10 ∧
      res.length ≤ 10 ∧
      res.Pairwise (fun a b => b.2 ≤ a.2) ∧
      ∀ v : Rat,
        (raw.filter (fun p => p.2 == v)).Sublist (sortByValueDesc raw) :=
  c3_rank_top_ten "ROE" _ (by simp)

/-! Helper lemmas about the bulk loader. -/

lemma parseCell_cases (pyFloat : String → Option Rat) (cell : Option String) :
    (∃ v, parseCell pyFloat cell = .ok v) ∨
      parseCell pyFloat cell = .error .valueError := by
  cases cell with
  | none => exact .inl ⟨none, rfl⟩
  | some s =>
    by_cases hs : s = ""
    · subst hs; exact .inl ⟨none, by simp [parseCell]⟩
    · cases hp : pyFloat s with
      | some q => exact .inl ⟨some q, by simp [parseCell, hs, hp]⟩
      | none => exact .inr (by simp [parseCell, hs, hp])

lemma parseCell_bad {pyFloat : String → Option Rat} {s : String}
    (hs : s ≠ "") (hp : pyFloat s = none) :
    parseCell pyFloat (some s) = .error .valueError := by
  simp [parseCell, hs, hp]

lemma parseFinRow_ok_cells {pyFloat : String → Option Rat} {r : FinRow}
    {fin : FinancialData} (hok : parseFinRow pyFloat r = .ok fin) :
    ∀ cell ∈ finCells r, ∃ v, parseCell pyFloat cell = .ok v := by
  rcases parseCell_cases pyFloat r.ebitda with ⟨v1, h1⟩ | h1
  case inr => rw [(by unfold parseFinRow; rw [h1]; rfl :
    parseFinRow pyFloat r = .error .valueError)] at hok; exact absurd hok (by simp)
  rcases parseCell_cases pyFloat r.sales with ⟨v2, h2⟩ | h2
  case inr => rw [(by unfold parseFinRow; rw [h1, h2]; rfl :
    parseFinRow pyFloat r = .error .valueError)] at hok; exact absurd hok (by simp)
  rcases parseCell_cases pyFloat r.net_profit with ⟨v3, h3⟩ | h3
  case inr => rw [(by unfold parseFinRow; rw [h1, h2, h3]; rfl :
    parseFinRow pyFloat r = .error .valueError)] at hok; exact absurd hok (by simp)
  rcases parseCell_cases pyFloat r.market_price with ⟨v4, h4⟩ | h4
  case inr => rw [(by unfold parseFinRow; rw [h1, h2, h3, h4]; rfl :
    parseFinRow pyFloat r = .error .valueError)] at hok; exact absurd hok (by simp)
  rcases parseCell_cases pyFloat r.net_debt with ⟨v5, h5⟩ | h5
  case inr => rw [(by unfold parseFinRow; rw [h1, h2, h3, h4, h5]; rfl :
    parseFinRow pyFloat r = .error .valueError)] at hok; exact absurd hok (by simp)
  rcases parseCell_cases pyFloat r.assets with ⟨v6, h6⟩ | h6
  case inr => rw [(by unfold parseFinRow; rw [h1, h2, h3, h4, h5, h6]; rfl :
    parseFinRow pyFloat r = .error .valueError)] at hok; exact absurd hok (by simp)
  rcases parseCell_cases pyFloat r.equity with ⟨v7, h7⟩ | h7
  case inr => rw [(by unfold parseFinRow; rw [h1, h2, h3, h4, h5, h6, h7]; rfl :
    parseFinRow pyFloat r = .error .valueError)] at hok; exact absurd hok (by simp)
  rcases parseCell_cases pyFloat r.cash_equivalents with ⟨v8, h8⟩ | h8
  case inr => rw [(by unfold parseFinRow; rw [h1, h2, h3, h4, h5, h6, h7, h8]; rfl :
    parseFinRow pyFloat r = .error .valueError)] at hok; exact absurd hok (by simp)
  rcases parseCell_cases pyFloat r.liabilities with ⟨v9, h9⟩ | h9
  case inr => rw [(by unfold parseFinRow; rw [h1, h2, h3, h4, h5, h6, h7, h8, h9]; rfl :
    parseFinRow pyFloat r = .error .valueError)] at hok; exact absurd hok (by simp)
  intro cell hc
  simp only [finCells, List.mem_cons, List.not_mem_nil, or_false] at hc
  rcases hc with rfl | rfl | rfl | rfl | rfl | rfl | rfl | rfl | rfl
  · exact ⟨v1, h1⟩
  · exact ⟨v2, h2⟩
  · exact ⟨v3, h3⟩
  · exact ⟨v4, h4⟩
  · exact ⟨v5, h5⟩
  · exact ⟨v6, h6⟩
  · exact ⟨v7, h7⟩
  · exact ⟨v8, h8⟩
  · exact ⟨v9, h9⟩

lemma parseFinRow_err_of_bad {pyFloat : String → Option Rat} {r : FinRow}
    (hbad : rowHasBadCell pyFloat r) :
    ∀ fin, parseFinRow pyFloat r ≠ .ok fin := by
  intro fin hok
  obtain ⟨s, hmem, hne, hpf⟩ := hbad
  obtain ⟨v, hv⟩ := parseFinRow_ok_cells hok (some s) hmem
  rw [parseCell_bad hne hpf] at hv
  exact absurd hv (by simp)

lemma mergeFinRows_cons_ok {pyFloat : String → Option Rat} {a : FinRow}
    {fin : FinancialData} (ha : parseFinRow pyFloat a = .ok fin)
    (rest : List FinRow) (db : DB) :
    mergeFinRows pyFloat (a :: rest) db =
      mergeFinRows pyFloat rest
        { db with financials := mergeAssoc a.ticker fin db.financials } := by
  conv_lhs => unfold mergeFinRows
  rw [ha]

lemma mergeFinRows_cons_err {pyFloat : String → Option Rat} {a : FinRow}
    {e : PyError} (ha : parseFinRow pyFloat a = .error e)
    (rest : List FinRow) (db : DB) :
    mergeFinRows pyFloat (a :: rest) db = .error e := by
  conv_lhs => unfold mergeFinRows
  rw [ha]

lemma mergeFinRows_err_of_mem {pyFloat : String → Option Rat} {r : FinRow}
    (hbad : ∀ fin, parseFinRow pyFloat r ≠ .ok fin) :
    ∀ frows, r ∈ frows → ∀ db, ∃ e, mergeFinRows pyFloat frows db = .error e := by
  intro frows
  induction frows with
  | nil => intro h; exact absurd h (List.not_mem_nil r)
  | cons a rest ih =>
    intro hr db
    cases ha : parseFinRow pyFloat a with
    | error e => exact ⟨e, mergeFinRows_cons_err ha rest db⟩
    | ok fin =>
      have hr2 : r ∈ rest := by
        rcases List.mem_cons.mp hr with rfl | hh
        · exact absurd ha (hbad fin)
        · exact hh
      obtain ⟨e, he⟩ := ih hr2
        { db with financials := mergeAssoc a.ticker fin db.financials }
      exact ⟨e, by rw [mergeFinRows_cons_ok ha rest db]; exact he⟩

lemma mergeCompanyRows_financials (crows : List CompanyRow) :
    ∀ db : DB, (mergeCompanyRows crows db).financials = db.financials := by
  induction crows with
  | nil => intro db; rfl
  | cons r rest ih => intro db; simp [mergeCompanyRows, ih]

lemma mergeCompanyRows_lookup {t : String} (crows : List CompanyRow)
    (hc : t ∉ crows.map CompanyRow.ticker) :
    ∀ db : DB,
      lookupAssoc t (mergeCompanyRows crows db).companies =
        lookupAssoc t db.companies := by
  induction crows with
  | nil => intro db; rfl
  | cons r rest ih =>
    simp only [List.map_cons, List.mem_cons, not_or] at hc
    intro db
    have step := ih hc.2
      { db with companies :=
          mergeAssoc r.ticker { name := r.name, sector := r.sector } db.companies }
    rw [mergeCompanyRows]
    rw [step]
    exact lookupAssoc_mergeAssoc_ne hc.1 _ _

lemma mergeFinRows_ok_frame {pyFloat : String → Option Rat} {t : String} :
    ∀ frows, t ∉ frows.map FinRow.ticker → ∀ db db2 : DB,
      mergeFinRows pyFloat frows db = .ok db2 →
      lookupAssoc t db2.financials = lookupAssoc t db.financials ∧
        db2.companies = db.companies := by
  intro frows
  induction frows with
  | nil =>
    intro h db db2 hok
    have : db = db2 := by
      have hh := hok
      unfold mergeFinRows at hh
      exact Except.ok.inj hh
    subst this
    exact ⟨rfl, rfl⟩
  | cons a rest ih =>
    intro h db db2 hok
    simp only [List.map_cons, List.mem_cons, not_or] at h
    cases ha : parseFinRow pyFloat a with
    | error e =>
      rw [mergeFinRows_cons_err ha rest db] at hok
      exact absurd hok (by simp)
    | ok fin =>
      rw [mergeFinRows_cons_ok ha rest db] at hok
      obtain ⟨h1, h2⟩ := ih h.2 _ db2 hok
      refine ⟨?_, h2⟩
      exact h1.trans (lookupAssoc_mergeAssoc_ne h.1 _ _)

/-- C4: during bulk load an empty or missing numeric cell is stored as
unknown, never as zero, while a non-empty cell the float builtin rejects
raises a ValueError that rolls the whole load transaction back, leaving
the prior store state intact and the load reported as failed. -/
theorem c4_bad_cell_rolls_back (pyFloat : String → Option Rat) :
    (∀ cell, (cell = none ∨ cell = some "") →
      parseCell pyFloat cell = Except.ok none) ∧
    (∀ (force : Bool) (db : DB) crows frows r,
      (force = true ∨ db.companies = []) → r ∈ frows →
      rowHasBadCell pyFloat r →
      insert_data pyFloat force (some (crows, frows)) db =
        (db, LoadOutcome.rolledBack)) := by
  constructor
  · rintro cell (rfl | rfl)
    · rfl
    · simp [parseCell]
  · intro force db crows frows r hgo hr hbad
    have hcond : (force || db.companies.length == 0) = true := by
      rcases hgo with rfl | hdb
      · simp
      · simp [hdb]
    obtain ⟨e, he⟩ :=
      mergeFinRows_err_of_mem (parseFinRow_err_of_bad hbad) frows hr
        (mergeCompanyRows crows db)
    simp only [insert_data]
    rw [if_pos hcond]
    rw [he]

/-- Witness for C4: a missing cell parses to unknown, and one unparsable
ebitda cell rolls a forced load back on an empty store. -/
theorem c4_bad_cell_rolls_back_witness :
    parseCell noFloat none = Except.ok none ∧
    insert_data noFloat true (some ([], [badFinRow]))
      { companies := [], financials := [] } =
      ({ companies := [], financials := [] }, LoadOutcome.rolledBack) :=
  ⟨(c4_bad_cell_rolls_back noFloat).1 none (Or.inl rfl),
   (c4_bad_cell_rolls_back noFloat).2 true _ [] [badFinRow] badFinRow
     (Or.inl rfl) (by simp)
     ⟨"x", by simp [finCells, badFinRow], by simp, rfl⟩⟩

/-- C10: a forced bulk load merges rather than replaces: any Company or
Financial row whose ticker appears in neither input file is unchanged
afterwards, whether the load is skipped, rolled back, or committed. -/
theorem c10_forced_load_merges (pyFloat : String → Option Rat) (force : Bool)
    (crows : List CompanyRow) (frows : List FinRow) (db : DB) (t : String)
    (hc : t ∉ crows.map CompanyRow.ticker)
    (hf : t ∉ frows.map FinRow.ticker) :
    lookupAssoc t (insert_data pyFloat force (some (crows, frows)) db).1.companies
      = lookupAssoc t db.companies ∧
    lookupAssoc t (insert_data pyFloat force (some (crows, frows)) db).1.financials
      = lookupAssoc t db.financials := by
  simp only [insert_data]
  by_cases hgo : (force || db.companies.length == 0) = true
  · rw [if_pos hgo]
    cases hm : mergeFinRows pyFloat frows (mergeCompanyRows crows db) with
    | error e => exact ⟨rfl, rfl⟩
    | ok s2 =>
      obtain ⟨hfin, hcomp⟩ := mergeFinRows_ok_frame frows hf _ s2 hm
      constructor
      · show lookupAssoc t s2.companies = lookupAssoc t db.companies
        rw [hcomp]
        exact mergeCompanyRows_lookup crows hc db
      · show lookupAssoc t s2.financials = lookupAssoc t db.financials
        rw [hfin, mergeCompanyRows_financials]
  · rw [if_neg hgo]
    exact ⟨rfl, rfl⟩

/-- Witness for C10: loading one new company leaves the unrelated AAPL rows
untouched. -/
theorem c10_forced_load_merges_witness :
    lookupAssoc "AAPL"
      (insert_data noFloat true
        (some ([{ ticker := "MSFT", name := some "Microsoft", sector := none }],
               []))
        { companies := [("AAPL", { name := some "Apple", sector := none })],
          financials :=
            [("AAPL", { ebitda := some 1, sales := none, net_profit := none,
                        market_price := none, net_debt := none, assets := none,
                        equity := none, cash_equivalents := none,
                        liabilities := none })] }).1.companies
      = lookupAssoc "AAPL"
          [("AAPL", { name := some "Apple", sector := none })] ∧
    lookupAssoc "AAPL"
      (insert_data noFloat true
        (some ([{ ticker := "MSFT", name := some "Microsoft", sector := none }],
               []))
        { companies := [("AAPL", { name := some "Apple", sector := none })],
          financials :=
            [("AAPL", { ebitda := some 1, sales := none, net_profit := none,
                        market_price := none, net_debt := none, assets := none,
                        equity := none, cash_equivalents := none,
                        liabilities := none })] }).1.financials
      = lookupAssoc "AAPL"
          [("AAPL", ({ ebitda := some 1, sales := none, net_profit := none,
                       market_price := none, net_debt := none, assets := none,
                       equity := none, cash_equivalents := none,
                       liabilities := none } : FinancialData))] :=
  c10_forced_load_merges noFloat true _ [] _ "AAPL" (by simp) (by simp)

end InvestorCalc
